import Mathlib

/-!
Verification of the `aco_reader` repository: a shallow embedding of the
Adobe-ACO-file decoder in `src/acoreader/{_types,util,reader,swatch}.py`
(the legacy duplicate `src/aco_reader/reader.py` contains the same byte
primitives, including the same `sizeof(c_uint16)` slip in `read_uint32`).

Modelling conventions:
* Python `int` values are `Nat` (unsigned reads) or `Int` (signed reads).
* Python `float` is modelled by exact rationals `ℚ`; the decimal literals
  `182.04`, `655.35`, `255.99609375` from the source are exact as `ℚ`.
  Every comparison proved below is robust to the difference between the
  binary-float and the rational quotient at the integer inputs involved
  (the classification of v/256 against 255 and of hue/182.04 against 100
  agrees with IEEE doubles at every 16-bit word).
* Python exceptions are an `Err` inductive returned through `Except` /
  explicit result pairs.  Each constructor is tagged with the Python
  exception class it stands for.
* The modelled host is a little-endian CPython (the `sys.byteorder ==
  'little'` branches are taken).  `memmove` from a `bytes` object shorter
  than the copied size is modelled by `memmovePad`, which pads with zero
  bytes: CPython `bytes` are NUL-terminated, so the first byte past the
  end reads 0; no theorem below depends on more than one padding byte.
-/

namespace Aco

/-- Python exception surrogate.  Constructors marked `ValueError` are the
`raise ValueError(...)` sites of the source; `indexError`, `keyError` and
`attributeError` model `IndexError` / `KeyError` / `AttributeError`, which
are NOT caught by the `except ValueError` handler in `read_file`;
`infiniteLoop` models the never-terminating `while` loop of
`read_next_swatch` at end of file. -/
inductive Err where
  /-- ValueError: the `Too few values provided ...` guards of the decoders
      and of `interpret_colors`. -/
  | tooFewValues (got need : Nat)
  /-- ValueError: `The color space provided cannot be interpreted` in
      `interpret_colors` (the spec's UnsupportedColorSpace). -/
  | unsupportedSpace (cs_code : Int)
  /-- ValueError: `validate_color_space` rejecting UNSET or the custom
      spaces. -/
  | unhandledSpace (cs_code : Int)
  /-- ValueError: `Unable to validate values as the color space has not
      been set` in the `color_values` setter. -/
  | spaceNotSet
  /-- ValueError: `Value i is outside of the value limits` in the
      `color_values` setter (the spec's OutOfRangeValue). -/
  | outOfRange (i : Nat)
  /-- ValueError: `Provided values does not match the amount of values
      required` in the `color_values` setter (the spec's ArityMismatch). -/
  | arityMismatch (got need : Nat)
  /-- ValueError: `The color space for this swatch has already been set`
      in the `color_space` setter. -/
  | spaceAlreadySet
  /-- ValueError: `read_file` rejecting a header version other than 2. -/
  | unsupportedVersion (v : Nat)
  /-- IndexError: `COLOR_SPACE_LIMITS[self.color_space][i]` with `i` past
      the end of the limit list (Python `list index out of range`). -/
  | indexError
  /-- KeyError: a lookup in `COLOR_SPACE_LABELS` for a missing key
      (unreachable through the validated setters). -/
  | keyError
  /-- AttributeError: `ColorSpace.from_name` in `read_next_swatch`;
      `_types.py` defines only `from_value`, so the attribute lookup on
      the enum class fails. -/
  | attributeError
  /-- Divergence marker: the `while ('ColorSwatch' not in _line)` loop of
      `read_next_swatch` never exits once `readline` keeps returning `''`
      at end of file. -/
  | infiniteLoop
deriving DecidableEq, Repr

/-- Which `Err` values stand for a Python `ValueError` (these and only
these are caught by `except ValueError` in `read_file`). -/
def Err.isValueError : Err → Bool
  | .indexError => false
  | .keyError => false
  | .attributeError => false
  | .infiniteLoop => false
  | _ => true

/-- The `ColorSpace` enum of `_types.py`. -/
inductive ColorSpace where
  | RGB | HSB | CMYK | PANTONE | FOCOLTONE | TRUMATCH | TOYO88
  | LAB | GRAYSCALE | HKS | UNSET
deriving DecidableEq, Repr

/-- The enum member values (`RGB = 0`, ..., `HKS = 10`, `UNSET = -1`). -/
def ColorSpace.value : ColorSpace → Int
  | .RGB => 0
  | .HSB => 1
  | .CMYK => 2
  | .PANTONE => 3
  | .FOCOLTONE => 4
  | .TRUMATCH => 5
  | .TOYO88 => 6
  | .LAB => 7
  | .GRAYSCALE => 8
  | .HKS => 10
  | .UNSET => -1

/-- The enum member names, as Python's `.name` returns them. -/
def ColorSpace.pyName : ColorSpace → String
  | .RGB => "RGB"
  | .HSB => "HSB"
  | .CMYK => "CMYK"
  | .PANTONE => "PANTONE"
  | .FOCOLTONE => "FOCOLTONE"
  | .TRUMATCH => "TRUMATCH"
  | .TOYO88 => "TOYO88"
  | .LAB => "LAB"
  | .GRAYSCALE => "GRAYSCALE"
  | .HKS => "HKS"
  | .UNSET => "UNSET"

/-- `ColorSpace.from_value` of `_types.py` (an `if/elif` chain over the
raw code; every unknown code falls through to `UNSET`).  The decoder
calls it with the unsigned 16-bit word it just read, hence `Nat`. -/
def ColorSpace.from_value (value : Nat) : ColorSpace :=
  if value = 0 then .RGB
  else if value = 1 then .HSB
  else if value = 2 then .CMYK
  else if value = 3 then .PANTONE
  else if value = 4 then .FOCOLTONE
  else if value = 5 then .TRUMATCH
  else if value = 6 then .TOYO88
  else if value = 7 then .LAB
  else if value = 8 then .GRAYSCALE
  else if value = 10 then .HKS
  else .UNSET

/-- `validate_color_space` of `_types.py`: raises `ValueError` when the
space's value is one of `[-1, 3, 4, 5, 6, 10]`. -/
def validate_color_space (color_space : ColorSpace) : Except Err Unit :=
  if color_space.value = -1 ∨ color_space.value = 3 ∨ color_space.value = 4 ∨
     color_space.value = 5 ∨ color_space.value = 6 ∨ color_space.value = 10 then
    .error (.unhandledSpace color_space.value)
  else
    .ok ()

/-- The `ColorSpaceLimit` TypedDict (`_max` first, then `_min`, as in the
source). -/
structure ColorSpaceLimit where
  hi : ℚ
  lo : ℚ
deriving DecidableEq, Repr

/-- `COLOR_SPACE_LIMITS` of `_types.py`, as a partial map modelling dict
membership (`none` = key absent). -/
def COLOR_SPACE_LIMITS : ColorSpace → Option (List ColorSpaceLimit)
  | .RGB => some [⟨255, 0⟩, ⟨255, 0⟩, ⟨255, 0⟩]
  | .HSB => some [⟨100, 0⟩, ⟨100, 0⟩, ⟨100, 0⟩]
  | .CMYK => some [⟨100, 0⟩, ⟨100, 0⟩, ⟨100, 0⟩, ⟨100, 0⟩]
  | .LAB => some [⟨100, 0⟩, ⟨127, -128⟩, ⟨127, -128⟩]
  | .GRAYSCALE => some [⟨100, 0⟩]
  | _ => none

/-- `COLOR_SPACE_LABELS` of `_types.py`. -/
def COLOR_SPACE_LABELS : ColorSpace → Option (List String)
  | .RGB => some ["RED", "GREEN", "BLUE"]
  | .HSB => some ["HUE", "SATURATION", "BRIGHTNESS"]
  | .CMYK => some ["CYAN", "MAGENTA", "YELLOW", "BLACK"]
  | .LAB => some ["LIGHTNESS", "CHROMINANCE_A", "CHROMINANCE_B"]
  | .GRAYSCALE => some ["BRIGHTNESS"]
  | _ => none

/-- The mutable state of a Python `ColorSwatch` object: `name`, the
private `_color_space` (initialised to `None`) and `_color_values`
(initialised to `None`; Python dicts keep insertion order, modelled as an
association list). -/
structure ColorSwatch where
  name : String
  cspace : Option ColorSpace
  cvalues : Option (List (String × ℚ))
deriving DecidableEq, Repr

/-- The `color_space` property getter: `UNSET` while `_color_space` is
`None`. -/
def ColorSwatch.color_space (s : ColorSwatch) : ColorSpace :=
  s.cspace.getD .UNSET

/-- The `color_space` property setter: validates, then assigns only if
the current space is `UNSET`, otherwise raises `ValueError`.  An `.error`
result models a raise, which leaves the Python object unmutated (the
setter assigns only in its success branch). -/
def ColorSwatch.set_color_space (s : ColorSwatch) (color_space : ColorSpace) :
    Except Err ColorSwatch :=
  match validate_color_space color_space with
  | .error e => .error e
  | .ok _ =>
    if s.color_space = .UNSET then
      .ok { s with cspace := some color_space }
    else
      .error .spaceAlreadySet

/-- The range-check loop of the `color_values` setter: for each value in
order, look up `limits[i]` (raising `IndexError` when `i` runs past the
end of the limit list, exactly as Python list indexing does) and raise
`ValueError` when the value is below `_min` or above `_max`. -/
def checkRange (limits : List ColorSpaceLimit) : List ℚ → Nat → Option Err
  | [], _ => none
  | v :: rest, i =>
    match limits[i]? with
    | none => some .indexError
    | some lim =>
      if v < lim.lo ∨ v > lim.hi then some (.outOfRange i)
      else checkRange limits rest (i + 1)

/-- The `color_values` property setter of `_types.py`: requires the color
space to be a key of `COLOR_SPACE_LIMITS`, runs the range loop, then the
arity check, then builds the label-to-value dict. -/
def ColorSwatch.set_color_values (s : ColorSwatch) (values : List ℚ) :
    Except Err ColorSwatch :=
  match COLOR_SPACE_LIMITS s.color_space with
  | none => .error .spaceNotSet
  | some limits =>
    match checkRange limits values 0 with
    | some e => .error e
    | none =>
      match COLOR_SPACE_LABELS s.color_space with
      | none => .error .keyError
      | some value_labels =>
        if value_labels.length ≠ values.length then
          .error (.arityMismatch values.length value_labels.length)
        else
          .ok { s with cvalues := some (value_labels.zip values) }

/-- The `ColorSwatch.__init__` constructor: set `name`, then the color
space (validating), then the values (validating); any raise propagates
and no object is handed to the caller. -/
def mkColorSwatch (name : String) (color_space : ColorSpace) (values : List ℚ) :
    Except Err ColorSwatch :=
  match ColorSwatch.set_color_space ⟨name, none, none⟩ color_space with
  | .error e => .error e
  | .ok s => s.set_color_values values

/-! Byte primitives of `util.py` (duplicated in `src/aco_reader/reader.py`
with identical bodies).  A `BytesIO` is a byte list plus a read position;
`read n` returns at most `n` bytes and advances by the number actually
returned, exactly as `BytesIO.read` does. -/

/-- An open `BytesIO` stream: the underlying bytes and the cursor. -/
structure ByteStream where
  data : List Nat
  pos : Nat
deriving DecidableEq, Repr

/-- `file.read(n)`: the next at-most-`n` bytes, and the advanced stream. -/
def ByteStream.read (s : ByteStream) (n : Nat) : List Nat × ByteStream :=
  let chunk := (s.data.drop s.pos).take n
  (chunk, { s with pos := s.pos + chunk.length })

/-- `ctypes.memmove(ptr, c, n)` reading from a CPython `bytes` object `c`:
the first `c.length` bytes come from `c`; the next byte is the NUL
terminator (0).  Bytes beyond that would be heap garbage; no theorem in
this file exercises more than one byte of padding. -/
def memmovePad (c : List Nat) (n : Nat) : List Nat :=
  (c ++ List.replicate n 0).take n

/-- The little-endian integer value of a byte list (byte 0 is least
significant), as ctypes reads the copied buffer on the modelled host. -/
def le_value : List Nat → Nat
  | [] => 0
  | b :: rest => b + 256 * le_value rest

/-- `read_uint16` of `util.py`: read 2 bytes, reverse them on the
little-endian host, memmove `sizeof(c_uint16)` = 2 bytes into a `c_uint16`.
Note that a short read does NOT raise: `memmove` just copies past the end
of the short buffer (see `memmovePad`). -/
def read_uint16 (file : ByteStream) : Nat × ByteStream :=
  let (c, file') := file.read 2
  (le_value (memmovePad c.reverse 2), file')

/-- `read_int16` of `util.py`: as `read_uint16` but the copied bytes are
reinterpreted as a signed two's-complement `c_int16`. -/
def read_int16 (file : ByteStream) : Int × ByteStream :=
  let (c, file') := file.read 2
  let u := le_value (memmovePad c.reverse 2)
  (if u < 32768 then (u : Int) else (u : Int) - 65536, file')

/-- `read_uint32` of `util.py` (and of `src/aco_reader/reader.py`): reads
4 bytes and reverses them, but then memmoves only `sizeof(c_uint16)` = 2
bytes into the zero-initialised `c_uint32` — so only the two LEAST
significant bytes of the reversed buffer (the two LAST bytes of the
big-endian field) reach the result. -/
def read_uint32 (file : ByteStream) : Nat × ByteStream :=
  let (c, file') := file.read 4
  (le_value (memmovePad c.reverse 2), file')

/-- The loop body of `read_string`: per character, read 2 bytes, reverse
them (little-endian host) and decode the resulting UTF-16 code unit.
Code units that are not valid scalar values fall back to `Char.ofNat`'s
default, a detail no theorem depends on (names in the theorems below are
empty). -/
def read_string_go : Nat → ByteStream → List Char → List Char × ByteStream
  | 0, file, acc => (acc, file)
  | n + 1, file, acc =>
    let (c, file') := file.read 2
    read_string_go n file' (acc ++ [Char.ofNat (le_value c.reverse)])

/-- `read_string` of `util.py`: `length` UTF-16 code units, with NUL
characters stripped from the result. -/
def read_string (file : ByteStream) (length : Nat) : String × ByteStream :=
  let (chars, file') := read_string_go length file []
  (⟨chars.filter (fun ch => ch ≠ Char.ofNat 0)⟩, file')

/-! Color converters of `reader.py`.  The inputs are the raw channel
words (`Int`, since the LAB path reads signed words); the outputs are the
calibrated values as exact rationals. -/

/-- `decode_rgb`: guard `len < 3`, then `v / 256` over the first 3. -/
def decode_rgb (values : List Int) : Except Err (List ℚ) :=
  if values.length < 3 then .error (.tooFewValues values.length 3)
  else .ok ((values.take 3).map (fun v => (v : ℚ) / 256))

/-- `decode_hsb`: guard `len < 3`, then `hue/182.04`, `sat/655.35`,
`bri/655.35`. -/
def decode_hsb (values : List Int) : Except Err (List ℚ) :=
  match values with
  | v0 :: v1 :: v2 :: _ =>
    .ok [(v0 : ℚ) / (18204 / 100), (v1 : ℚ) / (65535 / 100), (v2 : ℚ) / (65535 / 100)]
  | vs => .error (.tooFewValues vs.length 3)

/-- `decode_cmyk`: guard `len < 4`, then `v / 655.35` over ALL provided
values (no slice in the source; the decoder always passes exactly 4). -/
def decode_cmyk (values : List Int) : Except Err (List ℚ) :=
  if values.length < 4 then .error (.tooFewValues values.length 4)
  else .ok (values.map (fun v => (v : ℚ) / (65535 / 100)))

/-- `decode_lab`: guard `len < 3`, then `v / 100` over the first 3. -/
def decode_lab (values : List Int) : Except Err (List ℚ) :=
  if values.length < 3 then .error (.tooFewValues values.length 3)
  else .ok ((values.take 3).map (fun v => (v : ℚ) / 100))

/-- `interpret_colors` of `reader.py`: guard `len < 3`, then dispatch on
the `decode_methods` dict {RGB, HSB, CMYK, LAB}; any other space raises
`ValueError` (`The color space provided cannot be interpreted`). -/
def interpret_colors (color_space : ColorSpace) (values : List Int) :
    Except Err (List ℚ) :=
  if values.length < 3 then .error (.tooFewValues values.length 3)
  else
    match color_space with
    | .RGB => decode_rgb values
    | .HSB => decode_hsb values
    | .CMYK => decode_cmyk values
    | .LAB => decode_lab values
    | cs => .error (.unsupportedSpace cs.value)

/-- `read_color_values` of `src/acoreader/reader.py`: space code (u16),
channel word 0 (always u16), channel words 1-3 (i16 iff the space's value
is 7, i.e. LAB, else u16), the u32 name length, the name, then
`interpret_colors` and the `ColorSwatch` constructor.  All byte reads
complete before either raising call, so the post-state of the stream is
the same whether or not an exception is raised; the result pair returns
both the outcome and that post-state. -/
def read_color_values (file : ByteStream) :
    Except Err ColorSwatch × ByteStream :=
  let r0 := read_uint16 file
  let color_space := ColorSpace.from_value r0.1
  let r1 := read_uint16 r0.2
  let rc : (Int × Int × Int) × ByteStream :=
    if color_space.value = 7 then
      let s1 := read_int16 r1.2
      let s2 := read_int16 s1.2
      let s3 := read_int16 s2.2
      ((s1.1, s2.1, s3.1), s3.2)
    else
      let u1 := read_uint16 r1.2
      let u2 := read_uint16 u1.2
      let u3 := read_uint16 u2.2
      (((u1.1 : Int), (u2.1 : Int), (u3.1 : Int)), u3.2)
  let rn := read_uint32 rc.2
  let rs := read_string rn.2 rn.1
  match interpret_colors color_space [(r1.1 : Int), rc.1.1, rc.1.2.1, rc.1.2.2] with
  | .error e => (.error e, rs.2)
  | .ok values =>
    match mkColorSwatch rs.1 color_space values with
    | .error e => (.error e, rs.2)
    | .ok sw => (.ok sw, rs.2)

/-! The Text Formatter (`ColorSwatch.__str__`) and the Text Parser
(`swatch.read_next_swatch`). -/

/-- A single-quote string (Python writes the name between `'` marks). -/
def squote : String := String.mk ['\'']

/-- Round to the nearest integer, ties to even — the rounding Python's
`format(v, '.2f')` applies to the (here exact) scaled value. -/
def roundHalfEven (q : ℚ) : ℤ :=
  let f : ℤ := ⌊q⌋
  let frac : ℚ := q - (f : ℚ)
  if frac < 1 / 2 then f
  else if 1 / 2 < frac then f + 1
  else if f % 2 = 0 then f else f + 1

/-- Python's `f'{v:.2f}'` on the modelled rational value. -/
def format2f (q : ℚ) : String :=
  let n := roundHalfEven (q * 100)
  let m := n.natAbs
  let frac := m % 100
  (if n < 0 then "-" else "") ++ toString (m / 100) ++ "." ++
    (if frac < 10 then "0" else "") ++ toString frac

/-- One `        <label_lower> = <value:.2f>,` line of the formatter. -/
def valueLine (kv : String × ℚ) : String :=
  "        " ++ kv.1.toLower ++ " = " ++ format2f kv.2 ++ ",\n"

/-- `ColorSwatch.__str__` of `_types.py`: the canonical text block (a
left brace is written `\x7b` and a right brace `\x7d` below).  Iterating
`self.color_values.keys()` on a fully constructed swatch walks the
insertion-ordered dict; `getD []` is only reached for an object whose
values were never set (where Python would raise on iterating `None`). -/
def ColorSwatch.toStr (s : ColorSwatch) : String :=
  "ColorSwatch \x7b\n" ++
  "    name: " ++ squote ++ s.name ++ squote ++ ",\n" ++
  "    color_space: " ++ s.color_space.pyName ++ ",\n" ++
  "    values: \x7b\n" ++
  String.join ((s.cvalues.getD []).map valueLine) ++
  "    \x7d\n" ++ "\x7d\n\n"

/-- Split a character list at the first newline; the newline stays with
the first part, as `TextIOWrapper.readline` keeps it. -/
def splitLine : List Char → List Char × List Char
  | [] => ([], [])
  | ch :: rest =>
    if ch = '\n' then ([ch], rest)
    else
      let (l, r) := splitLine rest
      (ch :: l, r)

/-- `file.readline()` on the remaining text: the next line (with its
newline) and the rest; at end of file it returns the empty string. -/
def readline (s : String) : String × String :=
  let (l, r) := splitLine s.data
  (⟨l⟩, ⟨r⟩)

/-- Whether `pat` is an initial segment of `cs`. -/
def startsWithChars : List Char → List Char → Bool
  | [], _ => true
  | _ :: _, [] => false
  | p :: ps, c :: cs => p = c && startsWithChars ps cs

/-- Whether `pat` occurs contiguously anywhere in the list. -/
def hasSub (pat : List Char) : List Char → Bool
  | [] => startsWithChars pat []
  | c :: cs => startsWithChars pat (c :: cs) || hasSub pat cs

/-- Python's `'ColorSwatch' in line` substring test. -/
def containsColorSwatch (line : String) : Bool :=
  hasSub "ColorSwatch".data line.data

/-- The scan-forward loop of `read_next_swatch`: read lines until one
contains `ColorSwatch`.  At end of file Python's `readline` returns `''`
forever and the loop never exits; the fuel (always called with more fuel
than the text has characters) makes that case return `none`. -/
def findSwatchStart : Nat → String → Option String
  | 0, _ => none
  | fuel + 1, s =>
    let (line, rest) := readline s
    if containsColorSwatch line then some rest
    else if s.isEmpty then none
    else findSwatchStart fuel rest

/-- `read_next_swatch` of `swatch.py`.  After the header line is found it
reads the name line and cleans it (lines 33-35, mirrored below although
the result is never used), reads the color-space line — whose
`replace(...).strip()` result is DISCARDED (line 39) — and then calls
`ColorSpace.from_name(...)` (line 40).  `_types.py` defines no
`from_name` on the enum, so the attribute lookup raises `AttributeError`
before anything else happens; every call that finds a header therefore
raises, and a call that never finds one loops forever. -/
def read_next_swatch (file : String) : Except Err ColorSwatch :=
  match findSwatchStart (file.length + 1) file with
  | none => .error .infiniteLoop
  | some rest =>
    let (nameLine, rest1) := readline rest
    let _name :=
      ((((nameLine.replace "name:" "").replace squote "").replace "," "").trim)
    let (_csLine, _rest2) := readline rest1
    .error .attributeError

/-! `read_file` of `src/acoreader/reader.py`.  The filename/`xargs` path
glue and the output-file sink are the spec's external collaborators; the
model takes the byte stream and the two effective flags and records the
observable outcome: the exception that propagated (if any), the text
blocks written to the output sink, and the lines printed. -/

/-- The observable outcome of one `read_file` call. -/
structure ReadFileResult where
  raised : Option Err
  written : List String
  printed : List String
deriving DecidableEq, Repr

/-- The swatch loop of `read_file`: `color_count` iterations; each calls
`read_color_values`; a raised `ValueError` is counted and skipped under
`fail_quiet`, re-raised otherwise (any non-`ValueError` exception always
propagates: the handler is `except ValueError`).  Returns the propagated
exception (if any), the blocks written, and the failure count. -/
def swatchLoop : Nat → ByteStream → Bool → List String → Nat →
    Option Err × List String × Nat
  | 0, _, _, written, fails => (none, written, fails)
  | n + 1, f, fail_quiet, written, fails =>
    match read_color_values f with
    | (.ok sw, f') => swatchLoop n f' fail_quiet (written ++ [sw.toStr]) fails
    | (.error e, f') =>
      if fail_quiet && e.isValueError then
        swatchLoop n f' fail_quiet written (fails + 1)
      else
        (some e, written, fails)

/-- `read_file` of `src/acoreader/reader.py` (lines 252-291): read the
u16 version — if it is not 2, return silently under `fail_quiet`, raise
`ValueError` otherwise; read the u16 swatch count; print the `Reading
...` line when verbose; run the swatch loop; finally, only when verbose,
print the `Finished ...` line and, only when additionally `fail_quiet`,
the failure count.  The local `fail_count` is never returned. -/
def read_file (file : ByteStream) (verbose fail_quiet : Bool) : ReadFileResult :=
  let (version, f1) := read_uint16 file
  if version ≠ 2 then
    if fail_quiet then ⟨none, [], []⟩
    else ⟨some (.unsupportedVersion version), [], []⟩
  else
    let (color_count, f2) := read_uint16 f1
    let printed1 : List String :=
      if verbose then ["Reading " ++ toString color_count ++ " colors"] else []
    match swatchLoop color_count f2 fail_quiet [] 0 with
    | (some e, written, _) => ⟨some e, written, printed1⟩
    | (none, written, fails) =>
      let printed2 : List String :=
        if verbose then
          printed1 ++ ["Finished reading"] ++
            (if fail_quiet then
              ["Failed to interpret " ++ toString fails ++ " swatches."]
            else [])
        else printed1
      ⟨none, written, printed2⟩

/-- Helper for building entry bytes: a big-endian 16-bit field. -/
def u16be (w : Nat) : List Nat := [w / 256, w % 256]

end Aco

deriving instance DecidableEq for Except

namespace Aco

/-! Shared helper lemmas. -/

/-- Reading a u16 at the head of a stream yields the big-endian value of
its first two bytes. -/
theorem read_uint16_cons (b0 b1 : Nat) (rest : List Nat) :
    read_uint16 ⟨b0 :: b1 :: rest, 0⟩ = (b0 * 256 + b1, ⟨b0 :: b1 :: rest, 2⟩) := by
  simp [read_uint16, ByteStream.read, memmovePad, le_value]
  ring

/-- An error produced by `validate_color_space` models a `ValueError`. -/
theorem validate_err_isValueError (cs : ColorSpace) (e : Err)
    (h : validate_color_space cs = .error e) : e.isValueError = true := by
  cases cs <;> simp [validate_color_space, ColorSpace.value] at h <;>
    simp [← h, Err.isValueError]

/-- A space accepted by `validate_color_space` is not `UNSET`. -/
theorem validate_ok_ne_unset (cs : ColorSpace)
    (h : validate_color_space cs = .ok ()) : cs ≠ .UNSET := by
  intro hu
  subst hu
  simp [validate_color_space, ColorSpace.value] at h

/-- Constructing an RGB swatch whose first value exceeds 255 fails the
range loop at index 0. -/
theorem mk_rgb_channel0_over (name : String) (v0 v1 v2 : ℚ) (h : 255 < v0) :
    mkColorSwatch name .RGB [v0, v1, v2] = .error (.outOfRange 0) := by
  have h1 : ColorSwatch.set_color_space ⟨name, none, none⟩ .RGB =
      .ok ⟨name, some .RGB, none⟩ := by
    simp [ColorSwatch.set_color_space, validate_color_space, ColorSpace.value,
      ColorSwatch.color_space]
  rw [mkColorSwatch, h1]
  simp [ColorSwatch.set_color_values, ColorSwatch.color_space,
    COLOR_SPACE_LIMITS, checkRange]
  rw [if_pos (Or.inr h)]

/-- Constructing an HSB swatch whose first value exceeds 100 fails the
range loop at index 0. -/
theorem mk_hsb_hue_over (name : String) (v0 v1 v2 : ℚ) (h : 100 < v0) :
    mkColorSwatch name .HSB [v0, v1, v2] = .error (.outOfRange 0) := by
  have h1 : ColorSwatch.set_color_space ⟨name, none, none⟩ .HSB =
      .ok ⟨name, some .HSB, none⟩ := by
    simp [ColorSwatch.set_color_space, validate_color_space, ColorSpace.value,
      ColorSwatch.color_space]
  rw [mkColorSwatch, h1]
  simp [ColorSwatch.set_color_values, ColorSwatch.color_space,
    COLOR_SPACE_LIMITS, checkRange]
  rw [if_pos (Or.inr h)]

/-- Constructing a LAB swatch whose second value is below -128 fails the
range loop at index 1 (provided the first value passes). -/
theorem mk_lab_channel1_low (name : String) (v0 v1 v2 : ℚ)
    (h0 : 0 ≤ v0) (h1 : v0 ≤ 100) (h2 : v1 < -128) :
    mkColorSwatch name .LAB [v0, v1, v2] = .error (.outOfRange 1) := by
  have hs : ColorSwatch.set_color_space ⟨name, none, none⟩ .LAB =
      .ok ⟨name, some .LAB, none⟩ := by
    simp [ColorSwatch.set_color_space, validate_color_space, ColorSpace.value,
      ColorSwatch.color_space]
  rw [mkColorSwatch, hs]
  simp [ColorSwatch.set_color_values, ColorSwatch.color_space,
    COLOR_SPACE_LIMITS, checkRange]
  rw [if_neg, if_pos (Or.inl h2)]
  push_neg
  exact ⟨by linarith, by linarith⟩

/-- Unknown 16-bit codes map to `UNSET`. -/
theorem from_value_unknown (c : Nat)
    (h : c ∉ ([0, 1, 2, 3, 4, 5, 6, 7, 8, 10] : List Nat)) :
    ColorSpace.from_value c = .UNSET := by
  simp at h
  obtain ⟨h0, h1, h2, h3, h4, h5, h6, h7, h8, h10⟩ := h
  simp [ColorSpace.from_value, h0, h1, h2, h3, h4, h5, h6, h7, h8, h10]

/-- Reading a u16 at position `p` yields the big-endian value of the two
bytes found there. -/
theorem read_uint16_at (data : List Nat) (p b0 b1 : Nat) (rest : List Nat)
    (h : data.drop p = b0 :: b1 :: rest) :
    read_uint16 ⟨data, p⟩ = (b0 * 256 + b1, ⟨data, p + 2⟩) := by
  simp [read_uint16, ByteStream.read, memmovePad, le_value, h]
  ring

/-- Reading an i16 at position `p`: the big-endian value, two's-complement
signed. -/
theorem read_int16_at (data : List Nat) (p b0 b1 : Nat) (rest : List Nat)
    (h : data.drop p = b0 :: b1 :: rest) :
    read_int16 ⟨data, p⟩ =
      (if b0 * 256 + b1 < 32768 then ((b0 * 256 + b1 : Nat) : Int)
       else ((b0 * 256 + b1 : Nat) : Int) - 65536, ⟨data, p + 2⟩) := by
  simp [read_int16, ByteStream.read, memmovePad, le_value, h]
  rw [show b1 + 256 * b0 = b0 * 256 + b1 from by ring,
      show (b1 : Int) + 256 * (b0 : Int) = (b0 : Int) * 256 + (b1 : Int) from by ring]

/-- Reading the buggy u32 at position `p`: only the LAST two bytes of the
4-byte big-endian field reach the result (the `sizeof(c_uint16)` slip). -/
theorem read_uint32_at (data : List Nat) (p b0 b1 b2 b3 : Nat) (rest : List Nat)
    (h : data.drop p = b0 :: b1 :: b2 :: b3 :: rest) :
    read_uint32 ⟨data, p⟩ = (b2 * 256 + b3, ⟨data, p + 4⟩) := by
  simp [read_uint32, ByteStream.read, memmovePad, le_value, h]
  ring

/-- Reading a zero-length string consumes nothing. -/
theorem read_string_zero (f : ByteStream) : read_string f 0 = ("", f) := rfl

/-! The claim theorems. -/

/-- C1: the claimed round-trip law `parse(format(r)) = r` does not hold:
for the record produced by `ColorSwatch('RED', RGB, [0,0,0])`, parsing
the formatter's output with `read_next_swatch` raises `AttributeError`
(the source calls `ColorSpace.from_name`, which `_types.py` never
defines), which is not even a `ValueError`-family validation failure.
The formatter and the constructor themselves work, as the first conjunct
shows; the parser is what crashes. -/
theorem C1_roundtrip_parser_crashes :
    mkColorSwatch "RED" .RGB [0, 0, 0] =
      .ok ⟨"RED", some .RGB, some [("RED", 0), ("GREEN", 0), ("BLUE", 0)]⟩ ∧
    read_next_swatch (ColorSwatch.toStr
      ⟨"RED", some .RGB, some [("RED", 0), ("GREEN", 0), ("BLUE", 0)]⟩) =
      .error .attributeError ∧
    Err.isValueError .attributeError = false := by
  decide

/-- C5: `read_uint32` consumes exactly 4 bytes (the position advances by
4), but it does NOT return the big-endian 32-bit value: the `memmove`
copies only `sizeof(c_uint16)` = 2 bytes, so on the bytes
`01 00 00 00` (big-endian value `2^24 = 16777216`) it returns 0. -/
theorem C5_read_uint32_truncates :
    read_uint32 ⟨[1, 0, 0, 0], 0⟩ = (0, ⟨[1, 0, 0, 0], 4⟩) ∧
    1 * 2 ^ 24 + 0 * 2 ^ 16 + 0 * 2 ^ 8 + 0 = 16777216 ∧
    (0 : Nat) ≠ 16777216 := by
  decide

/-- C6: `read_uint16` does not fail when fewer than 2 bytes remain — its
return type in the embedding has no error channel because the source has
no truncation check at all: `file.read(2)` returns the single remaining
byte and `memmove` copies 2 bytes from that 1-byte buffer (the second
byte read being CPython's NUL terminator), yielding the byte's value. -/
theorem C6_read_uint16_underfilled (x : Nat) (hx : x < 256) :
    read_uint16 ⟨[x], 0⟩ = (x, ⟨[x], 1⟩) := by
  simp [read_uint16, ByteStream.read, memmovePad, le_value]

/-- C6 witness: the one-byte buffer `[7]` yields 7 and no error. -/
theorem C6_witness : 7 < 256 ∧ read_uint16 ⟨[7], 0⟩ = (7, ⟨[7], 1⟩) :=
  ⟨by decide, C6_read_uint16_underfilled 7 (by decide)⟩

/-- C7 counterexample: a version-1 header under `fail_quiet` (even with
`verbose` set) makes `read_file` return normally having raised nothing,
written nothing and printed nothing — the error is dropped with neither a
raised failure nor a visible count, contradicting the claim. -/
theorem C7_counterexample :
    read_file ⟨[0, 1], 0⟩ true true = ⟨none, [], []⟩ ∧ (0 * 256 + 1 : Nat) ≠ 2 := by
  decide

/-- C7 amended: a header version other than 2 is silently swallowed in
`fail_quiet` mode (normal return, nothing raised, written or printed) and
raised as a `ValueError` only in strict mode. -/
theorem C7_version_handling (b0 b1 : Nat) (rest : List Nat) (vb : Bool)
    (h0 : b0 < 256) (h1 : b1 < 256) (hv : b0 * 256 + b1 ≠ 2) :
    read_file ⟨b0 :: b1 :: rest, 0⟩ vb true = ⟨none, [], []⟩ ∧
    read_file ⟨b0 :: b1 :: rest, 0⟩ vb false =
      ⟨some (.unsupportedVersion (b0 * 256 + b1)), [], []⟩ := by
  constructor <;> simp [read_file, read_uint16_cons, hv]

/-- C7 witness for the amended statement, at the version-1 header. -/
theorem C7_witness :
    0 < 256 ∧ 1 < 256 ∧ (0 * 256 + 1 : Nat) ≠ 2 ∧
    (read_file ⟨0 :: 1 :: [], 0⟩ true true = ⟨none, [], []⟩ ∧
     read_file ⟨0 :: 1 :: [], 0⟩ true false =
       ⟨some (.unsupportedVersion (0 * 256 + 1)), [], []⟩) :=
  ⟨by decide, by decide, by decide,
    C7_version_handling 0 1 [] true (by decide) (by decide) (by decide)⟩

/-- C8: construction is all-or-nothing and a mismatched-shorter list, an
out-of-range value or an invalid space raise `ValueError` — but a list
LONGER than the space's channel count raises `IndexError` from the range
loop (`COLOR_SPACE_LIMITS[space][i]` with `i` = 3 for RGB) before the
arity `ValueError` is ever reached, so the "validation error" part of the
claim fails on over-long lists. -/
theorem C8_construction_errors :
    mkColorSwatch "x" .RGB [0, 0, 0, 0] = .error .indexError ∧
    Err.isValueError .indexError = false ∧
    mkColorSwatch "x" .RGB [0, 0] = .error (.arityMismatch 2 3) ∧
    mkColorSwatch "x" .RGB [300, 0, 0] = .error (.outOfRange 0) ∧
    mkColorSwatch "x" .UNSET [0, 0, 0] = .error (.unhandledSpace (-1)) ∧
    mkColorSwatch "x" .PANTONE [0, 0, 0] = .error (.unhandledSpace 3) := by
  decide

/-- C9: once a swatch's color space is set to a validated (handled)
space, every further attempt to set it — with any space whatsoever —
returns a `ValueError`-family error and performs no mutation (the setter
assigns only in its success branch; an `.error` result is a raise that
leaves the object as it was). -/
theorem C9_color_space_set_once (s : ColorSwatch) (cs cs' : ColorSpace)
    (hset : s.cspace = some cs) (hvalid : validate_color_space cs = .ok ()) :
    ∃ e, s.set_color_space cs' = .error e ∧ e.isValueError = true := by
  have hcs : s.color_space = cs := by simp [ColorSwatch.color_space, hset]
  have hne : cs ≠ .UNSET := validate_ok_ne_unset cs hvalid
  rw [ColorSwatch.set_color_space]
  cases hv' : validate_color_space cs' with
  | error e => exact ⟨e, rfl, validate_err_isValueError cs' e hv'⟩
  | ok u =>
    cases u
    refine ⟨.spaceAlreadySet, ?_, rfl⟩
    simp [hcs, hne]

/-- C2: LAB channel words 1-3 are read as signed 16-bit two's-complement
values (channel 0 is read unsigned before the branch); the raw word
`0x8000` (bytes `80 00`) reads as -32768, `decode_lab` calibrates it to
-327.68 (exactly, in the rational model), and decoding a LAB entry whose
channel-1 word is `0x8000` fails `ColorSwatch` construction at the range
check of index 1 (a `ValueError`, the spec's OutOfRangeValue) — no
clamping.  The entry below is `space=7, ch0=a0 b0, ch1=80 00, ch2=a2 b2,
ch3=a3 b3, name-length 0`; `a0 b0` is constrained so that channel 0
passes its own range check and the failure is attributable to channel 1. -/
theorem C2_lab_signed_range_failure (a0 b0 a2 b2 a3 b3 : Nat)
    (ha0 : a0 < 256) (hb0 : b0 < 256) (ha2 : a2 < 256) (hb2 : b2 < 256)
    (ha3 : a3 < 256) (hb3 : b3 < 256) (hw : a0 * 256 + b0 ≤ 10000) :
    read_int16 ⟨[128, 0], 0⟩ = (-32768, ⟨[128, 0], 2⟩) ∧
    decode_lab [0, -32768, 0] = .ok [0, -327.68, 0] ∧
    (read_color_values ⟨[0, 7, a0, b0, 128, 0, a2, b2, a3, b3, 0, 0, 0, 0], 0⟩).1 =
      .error (.outOfRange 1) := by
  refine ⟨?_, ?_, ?_⟩
  · have := read_int16_at [128, 0] 0 128 0 [] rfl
    norm_num at this
    exact this
  · norm_num [decode_lab]
  · have e1 : read_uint16 ⟨[0, 7, a0, b0, 128, 0, a2, b2, a3, b3, 0, 0, 0, 0], 0⟩ =
        (7, ⟨[0, 7, a0, b0, 128, 0, a2, b2, a3, b3, 0, 0, 0, 0], 2⟩) := by
      have := read_uint16_at [0, 7, a0, b0, 128, 0, a2, b2, a3, b3, 0, 0, 0, 0] 0 0 7 _ rfl
      norm_num at this
      exact this
    have e2 : read_uint16 ⟨[0, 7, a0, b0, 128, 0, a2, b2, a3, b3, 0, 0, 0, 0], 2⟩ =
        (a0 * 256 + b0, ⟨[0, 7, a0, b0, 128, 0, a2, b2, a3, b3, 0, 0, 0, 0], 4⟩) :=
      read_uint16_at _ 2 a0 b0 _ rfl
    have e3 : read_int16 ⟨[0, 7, a0, b0, 128, 0, a2, b2, a3, b3, 0, 0, 0, 0], 4⟩ =
        (-32768, ⟨[0, 7, a0, b0, 128, 0, a2, b2, a3, b3, 0, 0, 0, 0], 6⟩) := by
      have := read_int16_at [0, 7, a0, b0, 128, 0, a2, b2, a3, b3, 0, 0, 0, 0] 4 128 0 _ rfl
      norm_num at this
      exact this
    obtain ⟨i2, e4⟩ :
        ∃ v, read_int16 ⟨[0, 7, a0, b0, 128, 0, a2, b2, a3, b3, 0, 0, 0, 0], 6⟩ =
          (v, ⟨[0, 7, a0, b0, 128, 0, a2, b2, a3, b3, 0, 0, 0, 0], 8⟩) :=
      ⟨_, read_int16_at _ 6 a2 b2 _ rfl⟩
    obtain ⟨i3, e5⟩ :
        ∃ v, read_int16 ⟨[0, 7, a0, b0, 128, 0, a2, b2, a3, b3, 0, 0, 0, 0], 8⟩ =
          (v, ⟨[0, 7, a0, b0, 128, 0, a2, b2, a3, b3, 0, 0, 0, 0], 10⟩) :=
      ⟨_, read_int16_at _ 8 a3 b3 _ rfl⟩
    have e6 : read_uint32 ⟨[0, 7, a0, b0, 128, 0, a2, b2, a3, b3, 0, 0, 0, 0], 10⟩ =
        (0, ⟨[0, 7, a0, b0, 128, 0, a2, b2, a3, b3, 0, 0, 0, 0], 14⟩) := by
      have := read_uint32_at [0, 7, a0, b0, 128, 0, a2, b2, a3, b3, 0, 0, 0, 0] 10 0 0 0 0 _ rfl
      norm_num at this
      exact this
    have hfv : ColorSpace.from_value 7 = .LAB := rfl
    have hmk : mkColorSwatch "" .LAB
        [(((a0 * 256 + b0 : Nat) : Int) : ℚ) / 100, ((-32768 : Int) : ℚ) / 100,
          ((i2 : ℚ)) / 100] = .error (.outOfRange 1) := by
      apply mk_lab_channel1_low
      · positivity
      · rw [div_le_iff₀ (by norm_num : (0 : ℚ) < 100)]
        push_cast
        norm_num
        exact_mod_cast hw
      · norm_num
    have hint : interpret_colors .LAB [((a0 * 256 + b0 : Nat) : Int), -32768, i2, i3] =
        .ok [(((a0 * 256 + b0 : Nat) : Int) : ℚ) / 100, ((-32768 : Int) : ℚ) / 100,
          ((i2 : Int) : ℚ) / 100] := by
      simp [interpret_colors, decode_lab]
    simp only [read_color_values, e1, e2, e3, e4, e5, e6, read_string_zero, hfv,
      ColorSpace.value, if_true, hint, hmk]

/-- C2 witness at the all-zero channel bytes. -/
theorem C2_witness :
    0 < 256 ∧ (0 : Nat) * 256 + 0 ≤ 10000 ∧
    (read_int16 ⟨[128, 0], 0⟩ = (-32768, ⟨[128, 0], 2⟩) ∧
     decode_lab [0, -32768, 0] = .ok [0, -327.68, 0] ∧
     (read_color_values ⟨[0, 7, 0, 0, 128, 0, 0, 0, 0, 0, 0, 0, 0, 0], 0⟩).1 =
       .error (.outOfRange 1)) :=
  ⟨by decide, by decide,
    C2_lab_signed_range_failure 0 0 0 0 0 0 (by decide) (by decide) (by decide)
      (by decide) (by decide) (by decide) (by decide)⟩

/-- C3: `decode_rgb` maps each raw word `v` to `v / 256`, which for a
16-bit word lies in `[0, 255.99609375]`; and whenever `v > 65280` the
calibrated `v / 256` exceeds the RGB per-channel maximum 255, so
`ColorSwatch` construction from the converted values fails the range
check at index 0 with a `ValueError` (the spec's OutOfRangeValue). -/
theorem C3_rgb_decode_range (name : String) (v x y w : Nat) (hv : v ≤ 65535) :
    decode_rgb [(v : Int), (x : Int), (y : Int), (w : Int)] =
      .ok [(v : ℚ) / 256, (x : ℚ) / 256, (y : ℚ) / 256] ∧
    0 ≤ (v : ℚ) / 256 ∧ (v : ℚ) / 256 ≤ 255.99609375 ∧
    (65280 < v →
      mkColorSwatch name .RGB [(v : ℚ) / 256, (x : ℚ) / 256, (y : ℚ) / 256] =
        .error (.outOfRange 0)) := by
  refine ⟨?_, ?_, ?_, ?_⟩
  · simp [decode_rgb]
  · positivity
  · rw [div_le_iff₀ (by norm_num : (0 : ℚ) < 256)]
    norm_num
    exact_mod_cast hv
  · intro hover
    apply mk_rgb_channel0_over
    rw [lt_div_iff₀ (by norm_num : (0 : ℚ) < 256)]
    norm_num
    exact_mod_cast hover

/-- C3 witness at the raw word 65281 (the smallest word above 65280). -/
theorem C3_witness :
    (65281 : Nat) ≤ 65535 ∧ (65280 : Nat) < 65281 ∧
    mkColorSwatch "w" .RGB
      [((65281 : Nat) : ℚ) / 256, ((0 : Nat) : ℚ) / 256, ((0 : Nat) : ℚ) / 256] =
      .error (.outOfRange 0) :=
  ⟨by decide, by decide,
    (C3_rgb_decode_range "w" 65281 0 0 0 (by decide)).2.2.2 (by decide)⟩

/-- C4: every 16-bit code outside `{0,...,8,10}` maps to `UNSET`;
converting under `UNSET` fails in `interpret_colors` with the
unsupported-color-space `ValueError`; and `read_color_values` on such an
entry returns exactly that error — produced by `interpret_colors`, which
runs before the `ColorSwatch` constructor is ever invoked (no constructor
error constructor appears in the result). -/
theorem C4_unknown_space (c a0 b0 a1 b1 a2 b2 a3 b3 : Nat) (hc : c < 65536)
    (hmem : c ∉ ([0, 1, 2, 3, 4, 5, 6, 7, 8, 10] : List Nat)) :
    ColorSpace.from_value c = .UNSET ∧
    interpret_colors .UNSET [(a0 : Int), (a1 : Int), (a2 : Int), (a3 : Int)] =
      .error (.unsupportedSpace (-1)) ∧
    (read_color_values
        ⟨[c / 256, c % 256, a0, b0, a1, b1, a2, b2, a3, b3, 0, 0, 0, 0], 0⟩).1 =
      .error (.unsupportedSpace (-1)) := by
  have hfv := from_value_unknown c hmem
  refine ⟨hfv, ?_, ?_⟩
  · simp [interpret_colors, ColorSpace.value]
  · have e1 : read_uint16 ⟨[c / 256, c % 256, a0, b0, a1, b1, a2, b2, a3, b3, 0, 0, 0, 0], 0⟩ =
        (c, ⟨[c / 256, c % 256, a0, b0, a1, b1, a2, b2, a3, b3, 0, 0, 0, 0], 2⟩) := by
      have h := read_uint16_at [c / 256, c % 256, a0, b0, a1, b1, a2, b2, a3, b3, 0, 0, 0, 0]
        0 (c / 256) (c % 256) _ rfl
      rw [Nat.div_add_mod'] at h
      simpa using h
    obtain ⟨w0, e2⟩ :
        ∃ v, read_uint16 ⟨[c / 256, c % 256, a0, b0, a1, b1, a2, b2, a3, b3, 0, 0, 0, 0], 2⟩ =
          (v, ⟨[c / 256, c % 256, a0, b0, a1, b1, a2, b2, a3, b3, 0, 0, 0, 0], 4⟩) :=
      ⟨_, read_uint16_at _ 2 a0 b0 _ rfl⟩
    obtain ⟨w1, e3⟩ :
        ∃ v, read_uint16 ⟨[c / 256, c % 256, a0, b0, a1, b1, a2, b2, a3, b3, 0, 0, 0, 0], 4⟩ =
          (v, ⟨[c / 256, c % 256, a0, b0, a1, b1, a2, b2, a3, b3, 0, 0, 0, 0], 6⟩) :=
      ⟨_, read_uint16_at _ 4 a1 b1 _ rfl⟩
    obtain ⟨w2, e4⟩ :
        ∃ v, read_uint16 ⟨[c / 256, c % 256, a0, b0, a1, b1, a2, b2, a3, b3, 0, 0, 0, 0], 6⟩ =
          (v, ⟨[c / 256, c % 256, a0, b0, a1, b1, a2, b2, a3, b3, 0, 0, 0, 0], 8⟩) :=
      ⟨_, read_uint16_at _ 6 a2 b2 _ rfl⟩
    obtain ⟨w3, e5⟩ :
        ∃ v, read_uint16 ⟨[c / 256, c % 256, a0, b0, a1, b1, a2, b2, a3, b3, 0, 0, 0, 0], 8⟩ =
          (v, ⟨[c / 256, c % 256, a0, b0, a1, b1, a2, b2, a3, b3, 0, 0, 0, 0], 10⟩) :=
      ⟨_, read_uint16_at _ 8 a3 b3 _ rfl⟩
    have e6 : read_uint32 ⟨[c / 256, c % 256, a0, b0, a1, b1, a2, b2, a3, b3, 0, 0, 0, 0], 10⟩ =
        (0, ⟨[c / 256, c % 256, a0, b0, a1, b1, a2, b2, a3, b3, 0, 0, 0, 0], 14⟩) := by
      have := read_uint32_at [c / 256, c % 256, a0, b0, a1, b1, a2, b2, a3, b3, 0, 0, 0, 0]
        10 0 0 0 0 _ rfl
      norm_num at this
      exact this
    have hint : interpret_colors .UNSET [(w0 : Int), (w1 : Int), (w2 : Int), (w3 : Int)] =
        .error (.unsupportedSpace (-1)) := by
      simp [interpret_colors, ColorSpace.value]
    simp only [read_color_values, e1, e2, e3, e4, e5, e6, read_string_zero, hfv,
      ColorSpace.value, hint,
      (by norm_num : ((-1 : Int) = 7) = False), if_false]

/-- C4 witness at the unknown code 9. -/
theorem C4_witness :
    (9 : Nat) < 65536 ∧ (9 : Nat) ∉ ([0, 1, 2, 3, 4, 5, 6, 7, 8, 10] : List Nat) ∧
    (ColorSpace.from_value 9 = .UNSET ∧
     interpret_colors .UNSET [((0 : Nat) : Int), ((0 : Nat) : Int), ((0 : Nat) : Int),
        ((0 : Nat) : Int)] = .error (.unsupportedSpace (-1)) ∧
     (read_color_values ⟨[9 / 256, 9 % 256, 0, 0, 0, 0, 0, 0, 0, 0, 0, 0, 0, 0], 0⟩).1 =
       .error (.unsupportedSpace (-1))) :=
  ⟨by decide, by decide, C4_unknown_space 9 0 0 0 0 0 0 0 0 (by decide) (by decide)⟩

/-- C10: the HSB hue conversion `hue / 182.04` reaches about 360 at the
top of the 16-bit range (the last conjuncts), but the HSB limit table
caps every channel at 100, so any entry whose raw hue word exceeds 18204
fails construction at the range check of index 0, and every successfully
constructed HSB swatch had a raw hue word of at most 18204. -/
theorem C10_hsb_hue_cap (name : String) (h s b w3 : Nat) (hh : h ≤ 65535) :
    (18204 < h →
      Except.bind (interpret_colors .HSB [(h : Int), (s : Int), (b : Int), (w3 : Int)])
          (fun values => mkColorSwatch name .HSB values) = .error (.outOfRange 0)) ∧
    (∀ sw,
      Except.bind (interpret_colors .HSB [(h : Int), (s : Int), (b : Int), (w3 : Int)])
          (fun values => mkColorSwatch name .HSB values) = .ok sw → h ≤ 18204) ∧
    decode_hsb [65535, 0, 0] = .ok [(65535 : ℚ) / (18204 / 100), 0, 0] ∧
    (360 : ℚ) < (65535 : ℚ) / (18204 / 100) ∧ (65535 : ℚ) / (18204 / 100) < 361 := by
  have hint : interpret_colors .HSB [(h : Int), (s : Int), (b : Int), (w3 : Int)] =
      .ok [(h : ℚ) / (18204 / 100), (s : ℚ) / (65535 / 100), (b : ℚ) / (65535 / 100)] := by
    simp [interpret_colors, decode_hsb]
  have key : 18204 < h →
      Except.bind (interpret_colors .HSB [(h : Int), (s : Int), (b : Int), (w3 : Int)])
          (fun values => mkColorSwatch name .HSB values) = .error (.outOfRange 0) := by
    intro hgt
    rw [hint]
    show mkColorSwatch name .HSB _ = _
    apply mk_hsb_hue_over
    rw [lt_div_iff₀ (by norm_num : (0 : ℚ) < 18204 / 100)]
    norm_num
    exact_mod_cast hgt
  refine ⟨key, ?_, ?_, ?_, ?_⟩
  · intro sw hok
    by_contra hgt
    push_neg at hgt
    rw [key hgt] at hok
    simp at hok
  · norm_num [decode_hsb]
  · norm_num
  · norm_num

/-- C10 witness at the raw hue word 18205 (the smallest failing hue). -/
theorem C10_witness :
    (18205 : Nat) ≤ 65535 ∧ (18204 : Nat) < 18205 ∧
    Except.bind
        (interpret_colors .HSB [((18205 : Nat) : Int), ((0 : Nat) : Int), ((0 : Nat) : Int),
          ((0 : Nat) : Int)])
        (fun values => mkColorSwatch "w" .HSB values) = .error (.outOfRange 0) :=
  ⟨by decide, by decide,
    (C10_hsb_hue_cap "w" 18205 0 0 0 (by decide)).1 (by decide)⟩

/-- C9 witness: a swatch holding RGB rejects a second set to HSB. -/
theorem C9_witness :
    (⟨"x", some .RGB, none⟩ : ColorSwatch).cspace = some .RGB ∧
    validate_color_space .RGB = .ok () ∧
    ∃ e, (⟨"x", some .RGB, none⟩ : ColorSwatch).set_color_space .HSB = .error e ∧
      e.isValueError = true :=
  ⟨rfl, by decide, C9_color_space_set_once ⟨"x", some .RGB, none⟩ .RGB .HSB rfl (by decide)⟩

end Aco
